import Mathlib

/-! Verification of the EveData polling/caching/merge engine (pipecleaner).

A shallow embedding of src/pipecleaner.py.  Timestamps are modelled as integer
second counts (the code builds pd.Timestamp from time.ctime(), which has
second resolution); pandas DataFrames keyed by system id are modelled as
association lists; the pandas Panel objects used as timestamp-keyed snapshot
stores are modelled as association lists from timestamp to table.  The pandas
sorts (sort_index / sort_values) are modelled by the deterministic stable
List.insertionSort (pandas' default quicksort is deterministic but unspecified
on ties; a stable sort is the conventional deterministic stand-in).  The float
TrueSec columns are carried as scaled integers; no claim reads them.
-/

/-- One kills record as returned per system by kills_by_system (line 76):
ship kills and pod kills. -/
structure KillRec where
  ship : Int
  pod : Int
deriving Repr, DecidableEq

/-- A sovereignty record (sov_by_system, line 78); stored but never read. -/
structure SovRec where
  alliance : Int
  faction : Int
deriving Repr, DecidableEq

/-- One row of systems_df (lines 26-29, 40): the static topology. -/
structure TopoRow where
  entryId : Nat
  destId : Nat
  entry : String
  dest : String
  entryRegion : String
  destRegion : String
  entrySec : Int
  destSec : Int
deriving Repr, DecidableEq

/-- Association-list lookup: the model of label lookup (dict access and
DataFrame .ix row lookup by label). -/
def alookup [BEq κ] (l : List (κ × α)) (k : κ) : Option α :=
  (l.find? (fun p => p.1 == k)).map (fun p => p.2)

/-- A kills table reindexed over the universal id set: every id present, a
value of none models the NaN row that .ix reindexing produces for ids absent
from the raw response (line 85). -/
abbrev KillsTable := List (Nat × Option KillRec)

/-- The jumps table of line 86 (single column jumps). -/
abbrev JumpsTable := List (Nat × Option Int)

/-- The sovereignty table of line 87. -/
abbrev SovTable := List (Nat × Option SovRec)

/-- pd.DataFrame(raw).T.ix[system_ids] (lines 85-87): reindex the raw response
over the universal id set; ids missing from the response get a NaN row. -/
def reindex (ids : List Nat) (raw : List (Nat × α)) : List (Nat × Option α) :=
  ids.map (fun i => (i, alookup raw i))

/-- The raw mappings returned by the three evelink map-API calls
(lines 76-78). -/
structure RawResponse where
  kills : List (Nat × KillRec)
  jumps : List (Nat × Int)
  sov : List (Nat × SovRec)
deriving Repr, DecidableEq

/-- One interaction with the remote API as seen by one query() call:
fail = one of the three API calls raises (network failure, lines 76-81);
ok t none = the three calls return at wall-clock time t but the response is
malformed, so reshaping it (lines 85-87) raises;
ok t (some raw) = full success at wall-clock time t. -/
inductive ClientResult where
  | fail : ClientResult
  | ok : Int → Option RawResponse → ClientResult
deriving Repr, DecidableEq

/-- The state of a fully constructed EveData object: the attributes assigned
in __init__ (lines 40-59). -/
structure EveState where
  systems_df : List TopoRow
  system_ids : List Nat
  last_query_time : Int
  kills_history : List (Int × KillsTable)
  jumps_history : List (Int × JumpsTable)
  sov_history : List (Int × SovTable)
deriving Repr, DecidableEq

/-- panel[t] = v (dict-style item assignment, lines 136-138): replace in place
when the key already exists, else append. -/
def panelSet (h : List (Int × α)) (t : Int) (v : α) : List (Int × α) :=
  if h.any (fun p => p.1 == t) then h.map (fun p => if p.1 == t then (t, v) else p)
  else h ++ [(t, v)]

/-- panel.index.min() (lines 141, 143, 145): the smallest timestamp key. -/
def minKey : List (Int × α) → Int
  | [] => 0
  | p :: ps => ps.foldl (fun m q => min m q.1) p.1

/-- del panel[t] (lines 141, 143, 145): drop the entry stored under key t. -/
def panelDel (h : List (Int × α)) (t : Int) : List (Int × α) :=
  h.filter (fun p => !(p.1 == t))

/-- panel[t] (lines 98-99): exact-key lookup; none models the KeyError. -/
def panelGet (h : List (Int × α)) (t : Int) : Option α :=
  (h.find? (fun p => p.1 == t)).map (fun p => p.2)

/-- (cur_time - self.last_query_time).seconds (line 130): pandas
Timedelta.seconds is the seconds component of the day-normalized timedelta,
that is, the elapsed seconds modulo one day (86400), always in [0, 86400) -
not the total elapsed seconds. -/
def timedeltaSeconds (cur last : Int) : Int :=
  (cur - last) % 86400

/-- Class attribute update_interval (line 23). -/
def EveData.update_interval : Int := 1200

/-- Class attribute retry (line 24). -/
def EveData.retry : Nat := 5

/-- Class attribute max_frames (line 25). -/
def EveData.max_frames : Nat := 100

/-- EveData.query (lines 64-89).  The error payload is the state of the object
at the moment an exception leaves query(): on a network failure (lines 76-81)
nothing was mutated; on a malformed response the three API calls succeeded, so
line 83 has already advanced last_query_time before the reshaping on lines
85-87 raises. -/
def EveData.query (s : EveState) (c : ClientResult) :
    Except EveState (EveState × KillsTable × JumpsTable × SovTable) :=
  match c with
  | .fail => .error s
  | .ok t none => .error { s with last_query_time := t }
  | .ok t (some raw) =>
      .ok ({ s with last_query_time := t },
           reindex s.system_ids raw.kills,
           reindex s.system_ids raw.jumps,
           reindex s.system_ids raw.sov)

/-- A topology row with the three Entry_* observation columns attached
(lines 103-105). -/
structure EntryMerged where
  row : TopoRow
  entryShipKills : Int
  entryPodKills : Int
  entryJumps : Int
deriving Repr, DecidableEq

/-- A fully merged row: Entry_* and Dest_* columns attached (lines 103-111). -/
structure MergedRow where
  row : TopoRow
  entryShipKills : Int
  entryPodKills : Int
  entryJumps : Int
  destShipKills : Int
  destPodKills : Int
  destJumps : Int
deriving Repr, DecidableEq

/-- Zero-defaulting field extraction: an .ix label lookup whose NaN results
(either a NaN row produced by the reindexing of lines 85-87, or a label missing
from the table) are turned into 0 by the final fillna(0) on line 115. -/
def obsVal (tab : List (Nat × Option α)) (i : Nat) (f : α → Int) : Int :=
  match alookup tab i with
  | some (some v) => f v
  | _ => 0

/-- Lines 102-106: after set_index('Entry_ID').sort_index(), the three Entry_*
columns are attached by index alignment, which associates to each row the
kills/jumps values stored under that row's Entry_ID. -/
def attachEntry (kills : KillsTable) (jumps : JumpsTable) (r : TopoRow) : EntryMerged :=
  { row := r
    entryShipKills := obsVal kills r.entryId KillRec.ship
    entryPodKills := obsVal kills r.entryId KillRec.pod
    entryJumps := obsVal jumps r.entryId id }

/-- Lines 108-112: the same for the Dest_* columns, keyed by Dest_ID. -/
def attachDest (kills : KillsTable) (jumps : JumpsTable) (e : EntryMerged) : MergedRow :=
  { row := e.row
    entryShipKills := e.entryShipKills
    entryPodKills := e.entryPodKills
    entryJumps := e.entryJumps
    destShipKills := obsVal kills e.row.destId KillRec.ship
    destPodKills := obsVal kills e.row.destId KillRec.pod
    destJumps := obsVal jumps e.row.destId id }

/-- Lines 101-115 of latest(): the merge/reshape pipeline.  The row order is:
sort by Entry_ID (line 102), attach Entry_* (103-105), re-sort by Dest_ID
(line 108), attach Dest_* (109-111), finally sort by Dest_Region (line 114);
fillna(0) (line 115) is folded into obsVal. -/
def mergeView (topo : List TopoRow) (kills : KillsTable) (jumps : JumpsTable) :
    List MergedRow :=
  let m1 := List.insertionSort (fun a b => a.entryId ≤ b.entryId) topo
  let m2 := m1.map (attachEntry kills jumps)
  let m3 := List.insertionSort (fun a b => a.row.destId ≤ b.row.destId) m2
  let m4 := m3.map (attachDest kills jumps)
  List.insertionSort (fun a b => a.row.destRegion ≤ b.row.destRegion) m4

/-- EveData.latest (lines 91-117): read the kills and jumps snapshots stored at
last_query_time (lines 98-99; a missing key raises KeyError, modelled as none)
and return the timestamp together with the merged table.  sov_history is never
read. -/
def EveData.latest (s : EveState) : Option (Int × List MergedRow) :=
  match panelGet s.kills_history s.last_query_time,
        panelGet s.jumps_history s.last_query_time with
  | some kills, some jumps => some (s.last_query_time, mergeView s.systems_df kills jumps)
  | _, _ => none

/-- Lines 136-145 of update(): store the three new tables under the (already
advanced) last_query_time, then run the three eviction checks.  Note that the
third check (line 144) re-reads the length of kills_history - after the kills
eviction - to decide whether to evict from sov_history. -/
def EveData.storeAndEvict (s : EveState) (kdf : KillsTable) (jdf : JumpsTable)
    (vdf : SovTable) : EveState :=
  let kh := panelSet s.kills_history s.last_query_time kdf
  let jh := panelSet s.jumps_history s.last_query_time jdf
  let vh := panelSet s.sov_history s.last_query_time vdf
  let kh2 := if EveData.max_frames ≤ kh.length then panelDel kh (minKey kh) else kh
  let jh2 := if EveData.max_frames ≤ jh.length then panelDel jh (minKey jh) else jh
  let vh2 := if EveData.max_frames ≤ kh2.length then panelDel vh (minKey vh) else vh
  { s with kills_history := kh2, jumps_history := jh2, sov_history := vh2 }

/-- EveData.update (lines 120-147), with the wall clock cur and the remote
interaction passed explicitly.  The second component is the value handed back
to the caller; none models an exception escaping update() (which can only come
from the final latest() call, since the query attempt itself is wrapped in
try/except: pass). -/
def EveData.update (s : EveState) (cur : Int) (c : ClientResult) :
    EveState × Option (Int × List MergedRow) :=
  if EveData.update_interval < timedeltaSeconds cur s.last_query_time then
    match EveData.query s c with
    | .error s2 => (s2, EveData.latest s2)
    | .ok (s2, kdf, jdf, vdf) =>
        let s3 := EveData.storeAndEvict s2 kdf jdf vdf
        (s3, EveData.latest s3)
  else (s, EveData.latest s)

/-- set(pd.concat([Entry_ID, Dest_ID])) (lines 41-42): the universal system-id
set, modelled as the deduplicated concatenation. -/
def systemIds (topo : List TopoRow) : List Nat :=
  ((topo.map TopoRow.entryId) ++ (topo.map TopoRow.destId)).dedup

/-- Result of the __init__ retry loop (lines 47-62).  fatal is the
RuntimeError of line 62; halfBuilt t is the anomalous exit where query()
raised only after already setting last_query_time to t (malformed response),
so the loop guard of line 48 ends the loop although the history attributes
were never assigned; outOfFuel means the supplied interaction trace ran out
(unreachable for traces of length at least retry); ready is a fully
constructed object. -/
inductive InitResult where
  | fatal : InitResult
  | halfBuilt : Int → InitResult
  | outOfFuel : InitResult
  | ready : EveState → InitResult
deriving Repr, DecidableEq

/-- The __init__ retry loop (lines 47-62), driven by the trace of remote
interactions and carrying the tries counter.  Each iteration: try query(); on
an exception increment tries (lines 51-54); on success seed the three history
panels with a single frame at the success timestamp (lines 56-59); in either
case the finally block raises once tries has reached retry (lines 60-62);
loop while last_query_time is still None (line 48). -/
def EveData.initLoop (topo : List TopoRow) (ids : List Nat) :
    List ClientResult → Nat → InitResult
  | [], _ => .outOfFuel
  | c :: cs, tries =>
    match c with
    | .fail =>
        if EveData.retry ≤ tries + 1 then .fatal
        else EveData.initLoop topo ids cs (tries + 1)
    | .ok t none =>
        if EveData.retry ≤ tries + 1 then .fatal else .halfBuilt t
    | .ok t (some raw) =>
        if EveData.retry ≤ tries then .fatal
        else .ready
          { systems_df := topo
            system_ids := ids
            last_query_time := t
            kills_history := [(t, reindex ids raw.kills)]
            jumps_history := [(t, reindex ids raw.jumps)]
            sov_history := [(t, reindex ids raw.sov)] }

/-- EveData.__init__ (lines 31-62): load the topology, derive the universal
id set, and run the retry loop. -/
def EveData.construct (topo : List TopoRow) (trace : List ClientResult) : InitResult :=
  EveData.initLoop topo (systemIds topo) trace 0

/-! Concrete fixtures used by the counterexample and bug-witnessing theorems. -/

/-- A minimal post-init state: empty topology, histories seeded with one frame
at timestamp 0 (exactly what construct produces on a first-try success at
time 0 with an empty topology and an empty response). -/
def seed0 : EveState :=
  { systems_df := []
    system_ids := []
    last_query_time := 0
    kills_history := [(0, [])]
    jumps_history := [(0, [])]
    sov_history := [(0, [])] }

/-- A history of n empty frames at timestamps 0, 1, ..., n-1. -/
def constHist (n : Nat) : List (Int × List (Nat × Option α)) :=
  (List.range n).map (fun i => ((i : Int), []))

/-- C1: the staleness gate of update() (line 130) tests the seconds component
of the timedelta, not the total elapsed time.  With the last success at time 0
and the call arriving 86401 seconds (one day and one second) later, the
elapsed wall-clock time exceeds update_interval = 1200, yet
(cur - last).seconds = 1, the gate is closed, and no query attempt is made for
any behaviour of the remote client: update returns with the state and the
stale view unchanged. -/
theorem update_gate_day_rollover_bug :
    timedeltaSeconds 86401 0 = 1 ∧
    (1200 : Int) < 86401 - 0 ∧
    ∀ c : ClientResult, EveData.update seed0 86401 c = (seed0, EveData.latest seed0) := by
  refine ⟨by decide, by decide, fun c => ?_⟩
  unfold EveData.update
  rw [if_neg (by decide)]

/-- C6: query() advances last_query_time (line 83) before reshaping the raw
results (lines 85-87).  When the three API calls succeed at time 7 but the
response is malformed so that reshaping raises, query() fails as a whole -
yet the stored last-success timestamp has moved from 0 to 7, contradicting
the claim (and query's own docstring, lines 67-69). -/
theorem query_reshape_advances_clock_bug :
    seed0.last_query_time = 0 ∧
    EveData.query seed0 (.ok 7 none) = .error { seed0 with last_query_time := 7 } :=
  ⟨rfl, rfl⟩

/-- C4: a refresh whose query attempt fails in the reshaping step (after the
three API calls succeeded at time 1300) leaves update() in a corrupted state:
last_query_time has been advanced to 1300 (line 83) although nothing was
stored under that key, so the final latest() call (line 147) raises a lookup
error that escapes update() to the caller - modelled by the none result.
Before the call, latest() returned a value (isSome).  This contradicts every
part of the claim except the absence of history writes. -/
theorem update_reshape_failure_bug :
    (EveData.latest seed0).isSome = true ∧
    EveData.update seed0 1300 (.ok 1300 none) = ({ seed0 with last_query_time := 1300 }, none) := by
  refine ⟨by decide, ?_⟩
  unfold EveData.update
  rw [if_pos (by decide)]
  rfl

/-- C5: with a remote client that fails on every attempt, construction makes
exactly retry = 5 query attempts and then fails fatally: after five failures
the RuntimeError of line 62 fires without examining any further interaction
(the trace suffix cs is never consumed), while four failures followed by a
success instead yield a fully constructed object whose three histories each
hold exactly one snapshot at the success timestamp (lines 56-59) - so the
fifth attempt is indeed made. -/
theorem construct_retry_bound (topo : List TopoRow) (cs : List ClientResult)
    (t : Int) (raw : RawResponse) :
    EveData.construct topo (List.replicate EveData.retry .fail ++ cs) = .fatal ∧
    EveData.construct topo
        (List.replicate (EveData.retry - 1) .fail ++ .ok t (some raw) :: cs)
      = .ready { systems_df := topo
                 system_ids := systemIds topo
                 last_query_time := t
                 kills_history := [(t, reindex (systemIds topo) raw.kills)]
                 jumps_history := [(t, reindex (systemIds topo) raw.jumps)]
                 sov_history := [(t, reindex (systemIds topo) raw.sov)] } :=
  ⟨rfl, rfl⟩

/-- Drive n successful refreshes, spaced 2000 seconds apart (so each one passes
the staleness gate), each returning an empty raw response. -/
def runRefreshes (s : EveState) : Nat → EveState
  | 0 => s
  | n + 1 =>
      let s2 := runRefreshes s n
      (EveData.update s2 (s2.last_query_time + 2000)
        (.ok (s2.last_query_time + 2000) (some { kills := [], jumps := [], sov := [] }))).1

set_option maxRecDepth 4000 in
/-- C2: after 101 successful refreshes (N = 101 > max_frames = 100) starting
from a freshly seeded engine, the kills and jumps histories hold 99 frames -
not max_frames - because the eviction trigger on lines 140-143 fires already
at len >= max_frames, and the sovereignty history holds 102 frames - every
snapshot ever stored - because its trigger (line 144) re-reads the length of
the kills history after the kills eviction, which is then 99 < 100.  The
claim (size <= max_frames always, and exactly max_frames retained once
N > max_frames) fails on the code for every kind. -/
theorem eviction_count_bug :
    (runRefreshes seed0 101).kills_history.length = 99 ∧
    (runRefreshes seed0 101).jumps_history.length = 99 ∧
    (runRefreshes seed0 101).sov_history.length = 102 := by
  decide

/-- A pre-update state with 99-frame kills and jumps histories (timestamps
0..98), a 150-frame sovereignty history (timestamps 0..149), last success at
time 98. -/
def stateA : EveState :=
  { systems_df := []
    system_ids := []
    last_query_time := 98
    kills_history := constHist 99
    jumps_history := constHist 99
    sov_history := constHist 150 }

/-- Like stateA but with 150-frame kills and jumps histories (timestamps
0..149) and last success at time 149. -/
def stateB : EveState :=
  { systems_df := []
    system_ids := []
    last_query_time := 149
    kills_history := constHist 150
    jumps_history := constHist 150
    sov_history := constHist 150 }

set_option maxRecDepth 4000 in
/-- C3: whether the sovereignty history is evicted does not depend on its own
size but on the kills history's size as re-read on line 144.  stateA and
stateB carry the identical 150-frame sovereignty history; a successful refresh
from stateA (kills history at 99 frames, hence 99 again after its own
eviction) leaves the sovereignty history un-evicted at 151 frames - far above
max_frames = 100 - while the same refresh from stateB (kills history at 150
frames, still 150 >= 100 after eviction) does evict it, leaving 150. -/
theorem sov_eviction_coupling_bug :
    stateA.sov_history = stateB.sov_history ∧
    (EveData.update stateA 1398
        (.ok 1398 (some { kills := [], jumps := [], sov := [] }))).1.sov_history.length = 151 ∧
    (EveData.update stateB 1449
        (.ok 1449 (some { kills := [], jumps := [], sov := [] }))).1.sov_history.length = 150 := by
  decide

/-- The per-row merge as the spec's MergeView algorithm states it (spec
section 4.3, steps 1, 2 and 4): look up kills and jumps by Entry_ID, treating
an absent id or an absent field as 0, and independently by Dest_ID with the
same zero default. -/
def specMergedRow (kills : KillsTable) (jumps : JumpsTable) (r : TopoRow) : MergedRow :=
  { row := r
    entryShipKills := match alookup kills r.entryId with
      | some (some k) => k.ship
      | _ => 0
    entryPodKills := match alookup kills r.entryId with
      | some (some k) => k.pod
      | _ => 0
    entryJumps := match alookup jumps r.entryId with
      | some (some j) => j
      | _ => 0
    destShipKills := match alookup kills r.destId with
      | some (some k) => k.ship
      | _ => 0
    destPodKills := match alookup kills r.destId with
      | some (some k) => k.pod
      | _ => 0
    destJumps := match alookup jumps r.destId with
      | some (some j) => j
      | _ => 0 }

/-- C7: the merged output is, up to the final ordering, exactly one row per
topology row, carrying the three Entry_* values looked up by that row's
Entry_ID and the three Dest_* values looked up independently by its Dest_ID,
each defaulting to 0 when the id or the field is absent.  In particular an id
appearing only as Dest_ID with no kills/jumps data yields all-zero Entry_*
fields for rows where it is the Entry_ID - there are none - and its own row
gets zero Dest_* fields; the two roles never contaminate each other.  The
intermediate sorts and index alignments of lines 102-112 neither drop, dup-
licate nor cross-associate rows. -/
theorem mergeView_rowwise (topo : List TopoRow) (kills : KillsTable) (jumps : JumpsTable) :
    List.Perm (mergeView topo kills jumps) (topo.map (specMergedRow kills jumps)) := by
  have hfun : (attachDest kills jumps ∘ attachEntry kills jumps) = specMergedRow kills jumps := by
    funext r
    dsimp only [Function.comp, attachDest, attachEntry, specMergedRow, obsVal, id]
    rcases alookup kills r.entryId with _ | (_ | k1) <;>
      rcases alookup jumps r.entryId with _ | (_ | j1) <;>
        rcases alookup kills r.destId with _ | (_ | k2) <;>
          rcases alookup jumps r.destId with _ | (_ | j2) <;> rfl
  simp only [mergeView]
  refine (List.perm_insertionSort _ _).trans ?_
  refine ((List.perm_insertionSort _ _).map _).trans ?_
  rw [List.map_map, hfun]
  exact (List.perm_insertionSort _ _).map _

/-- Every list is vacuously pairwise related by the trivial relation. -/
theorem pairwise_trivial (l : List α) : l.Pairwise (fun _ _ => True) := by
  induction l with
  | nil => exact List.Pairwise.nil
  | cons a t ih => exact List.Pairwise.cons (fun _ _ => trivial) ih

/-- Stability of orderedInsert, combined with sortedness: inserting a into a
list that is sorted by r, pairwise related to a by q, and already carries the
combined relation, preserves the combined relation (r, refined by q on
r-ties). -/
theorem pairwise_orderedInsert_combined (r : α → α → Prop) [DecidableRel r]
    (q : α → α → Prop)
    (total : ∀ a b, r a b ∨ r b a) (tr : ∀ {a b c}, r a b → r b c → r a c)
    (a : α) (l : List α)
    (hR : l.Pairwise (fun x y => r x y ∧ (r y x → q x y)))
    (hq : ∀ x ∈ l, q a x) :
    (List.orderedInsert r a l).Pairwise (fun x y => r x y ∧ (r y x → q x y)) := by
  induction l with
  | nil => simp
  | cons b t ih =>
    rw [List.orderedInsert]
    by_cases hab : r a b
    · rw [if_pos hab]
      refine List.Pairwise.cons (fun y hy => ?_) hR
      rcases List.mem_cons.mp hy with hyb | hyt
      · subst hyb
        exact ⟨hab, fun _ => hq y (List.mem_cons_self y t)⟩
      · have hby := (List.pairwise_cons.mp hR).1 y hyt
        exact ⟨tr hab hby.1, fun _ => hq y (List.mem_cons_of_mem b hyt)⟩
    · rw [if_neg hab]
      refine List.Pairwise.cons (fun y hy => ?_) ?_
      · rcases (List.mem_orderedInsert r).mp hy with hya | hyt
        · subst hya
          exact ⟨(total y b).resolve_left hab, fun hyb => absurd hyb hab⟩
        · exact (List.pairwise_cons.mp hR).1 y hyt
      · exact ih (List.pairwise_cons.mp hR).2 (fun x hx => hq x (List.mem_cons_of_mem b hx))

/-- Stability of insertionSort: sorting a list that is pairwise related by q
with a total transitive comparison r yields a list pairwise related by r and,
on r-ties, still by q (ties keep the input's relative order). -/
theorem pairwise_insertionSort_combined (r : α → α → Prop) [DecidableRel r]
    (q : α → α → Prop)
    (total : ∀ a b, r a b ∨ r b a) (tr : ∀ {a b c}, r a b → r b c → r a c)
    (l : List α) (hq : l.Pairwise q) :
    (List.insertionSort r l).Pairwise (fun x y => r x y ∧ (r y x → q x y)) := by
  induction l with
  | nil => simp
  | cons b t ih =>
    rw [List.insertionSort]
    refine pairwise_orderedInsert_combined r q total tr b _ (ih (List.pairwise_cons.mp hq).2) ?_
    intro x hx
    exact (List.pairwise_cons.mp hq).1 x ((List.mem_insertionSort r).mp hx)

/-- C8 (amended): the merged output is non-decreasing in Dest_Region under
string comparison, and rows with equal Dest_Region appear in non-decreasing
Dest_ID order - the order produced by the Dest_ID sort of line 108 - rather
than in input topology order, because the pipeline re-sorts the rows by
Entry_ID (line 102) and then by Dest_ID (line 108) before the final region
sort of line 114 ever sees them. -/
theorem mergeView_region_sorted (topo : List TopoRow) (kills : KillsTable) (jumps : JumpsTable) :
    (mergeView topo kills jumps).Pairwise
      (fun a b => a.row.destRegion ≤ b.row.destRegion ∧
        (b.row.destRegion ≤ a.row.destRegion → a.row.destId ≤ b.row.destId)) := by
  simp only [mergeView]
  refine pairwise_insertionSort_combined
    (fun a b : MergedRow => a.row.destRegion ≤ b.row.destRegion)
    (fun a b : MergedRow => a.row.destId ≤ b.row.destId)
    (fun a b => le_total a.row.destRegion b.row.destRegion)
    (fun h1 h2 => le_trans h1 h2) _ ?_
  refine List.Pairwise.map (attachDest kills jumps) (fun a b h => h) ?_
  exact (pairwise_insertionSort_combined
    (fun a b : EntryMerged => a.row.destId ≤ b.row.destId) (fun _ _ => True)
    (fun a b => le_total a.row.destId b.row.destId)
    (fun h1 h2 => le_trans h1 h2) _ (pairwise_trivial _)).imp (fun h => h.1)

/-- Two topology rows in the same region "X", in input order Dest_ID 2 then
Dest_ID 1. -/
def tieTopo : List TopoRow :=
  [ { entryId := 1, destId := 2, entry := "e1", dest := "d2", entryRegion := "R",
      destRegion := "X", entrySec := 0, destSec := 0 },
    { entryId := 3, destId := 1, entry := "e3", dest := "d1", entryRegion := "R",
      destRegion := "X", entrySec := 0, destSec := 0 } ]

/-- C8 (counterexample): on a topology whose two rows share Dest_Region "X"
and appear with Dest_ID 2 before Dest_ID 1, the merged output comes back with
Dest_ID 1 before Dest_ID 2: rows with equal Dest_Region do not keep the
input topology's relative order, refuting the tie-stability half of the
claim at this concrete input. -/
theorem mergeView_tie_order_cex :
    tieTopo.map TopoRow.destRegion = ["X", "X"] ∧
    tieTopo.map TopoRow.destId = [2, 1] ∧
    (mergeView tieTopo [] []).map (fun m => m.row.destId) = [1, 2] ∧
    ¬ (mergeView tieTopo [] []).map (fun m => m.row.destId) = tieTopo.map TopoRow.destId := by
  have hXX : ("X" : String) ≤ "X" := le_refl _
  refine ⟨rfl, rfl, ?_, ?_⟩ <;>
    simp [mergeView, List.insertionSort, List.orderedInsert, tieTopo,
      attachEntry, attachDest, hXX]

/-- Congruence helper: latest() reads only systems_df, last_query_time and
the kills/jumps snapshots stored at last_query_time; any two states agreeing
on those - whatever their sov_history and their other snapshots - yield the
same result. -/
theorem latest_congr (s s2 : EveState)
    (h0 : s.systems_df = s2.systems_df)
    (h1 : s.last_query_time = s2.last_query_time)
    (h2 : panelGet s.kills_history s.last_query_time
        = panelGet s2.kills_history s2.last_query_time)
    (h3 : panelGet s.jumps_history s.last_query_time
        = panelGet s2.jumps_history s2.last_query_time) :
    EveData.latest s = EveData.latest s2 := by
  unfold EveData.latest
  rw [h2, h3, h1, h0]

/-- C9: latest() is a pure read.  In this embedding its type already shows
that it takes no remote-client interaction and returns no modified state
(lines 91-117 contain no attribute assignment and no API call); this theorem
states the remaining content: its result is a function of the topology table,
last_query_time, and the two snapshots stored at that timestamp alone, so it
is insensitive to sov_history and to every other stored frame, and two
consecutive calls with no intervening update return equal results. -/
theorem latest_readonly_pure (s s2 : EveState)
    (h0 : s.systems_df = s2.systems_df)
    (h1 : s.last_query_time = s2.last_query_time)
    (h2 : panelGet s.kills_history s.last_query_time
        = panelGet s2.kills_history s2.last_query_time)
    (h3 : panelGet s.jumps_history s.last_query_time
        = panelGet s2.jumps_history s2.last_query_time) :
    EveData.latest s = EveData.latest s2 :=
  latest_congr s s2 h0 h1 h2 h3

/-- A state agreeing with seed0 on the topology, the timestamp and the two
current snapshots, but with a different sovereignty history and extra stale
frames in the kills and jumps histories. -/
def frameW2 : EveState :=
  { systems_df := []
    system_ids := [7]
    last_query_time := 0
    kills_history := [(0, []), (5, [(1, some { ship := 2, pod := 3 })])]
    jumps_history := [(0, []), (9, [(1, some 4)])]
    sov_history := [] }

/-- C9 witness: the purity theorem applied at seed0 and frameW2. -/
theorem latest_readonly_pure_witness :
    EveData.latest seed0 = EveData.latest frameW2 :=
  latest_readonly_pure seed0 frameW2 rfl rfl rfl rfl

/-- C10: the results of update() are independent of the sovereignty data in
the response.  Two successful interactions at the same time differing only in
their sov component give the same returned (timestamp, merged table) value
and resulting states that agree on everything except sov_history: the
sovereignty snapshots are stored and rotated (lines 138, 144-145) but never
read by latest() or update(). -/
theorem update_sov_noninterference (s : EveState) (cur t : Int) (raw raw2 : RawResponse)
    (hk : raw.kills = raw2.kills) (hj : raw.jumps = raw2.jumps) :
    (EveData.update s cur (.ok t (some raw))).2
      = (EveData.update s cur (.ok t (some raw2))).2 ∧
    (EveData.update s cur (.ok t (some raw))).1.systems_df
      = (EveData.update s cur (.ok t (some raw2))).1.systems_df ∧
    (EveData.update s cur (.ok t (some raw))).1.last_query_time
      = (EveData.update s cur (.ok t (some raw2))).1.last_query_time ∧
    (EveData.update s cur (.ok t (some raw))).1.kills_history
      = (EveData.update s cur (.ok t (some raw2))).1.kills_history ∧
    (EveData.update s cur (.ok t (some raw))).1.jumps_history
      = (EveData.update s cur (.ok t (some raw2))).1.jumps_history := by
  unfold EveData.update EveData.query
  by_cases hgate : EveData.update_interval < timedeltaSeconds cur s.last_query_time
  · simp only [if_pos hgate]
    rw [hk, hj]
    refine ⟨latest_congr _ _ rfl rfl rfl rfl, ?_, ?_, ?_, ?_⟩ <;> rfl
  · simp only [if_neg hgate]
    refine ⟨?_, ?_, ?_, ?_, ?_⟩ <;> (first | rfl | trivial)

/-- A successful response carrying sovereignty data. -/
def rawS1 : RawResponse :=
  { kills := [(1, { ship := 8, pod := 9 })]
    jumps := [(1, 3)]
    sov := [(1, { alliance := 10, faction := 11 })] }

/-- The same response with the sovereignty data removed. -/
def rawS2 : RawResponse :=
  { kills := [(1, { ship := 8, pod := 9 })]
    jumps := [(1, 3)]
    sov := [] }

/-- C10 witness: the noninterference theorem applied at seed0 with two
responses differing only in sovereignty data. -/
theorem update_sov_noninterference_witness :
    (EveData.update seed0 1300 (.ok 1300 (some rawS1))).2
      = (EveData.update seed0 1300 (.ok 1300 (some rawS2))).2 :=
  (update_sov_noninterference seed0 1300 1300 rawS1 rawS2 rfl rfl).1
